import Mathlib

/-!
Verification of the CSV ingestion and scoring pipeline of the
krishna-maruti backend (src/krishna-maruti-backend/app.js).

The JavaScript functions `parseCSV`, `initializeCorrectAnswers`,
`isAnswerCorrect`, `mapRowToTestResponse`, `processSheetData` and the
aggregation in the `/api/dashboard-stats` handler are shallowly embedded
as total Lean functions.  JavaScript strings become `String`, arrays
become `List`, and the process-wide mutable globals `QUESTIONS` /
`CORRECT_ANSWERS` are threaded explicitly as values (their initial value
is `[]`, as in the source).  JavaScript number arithmetic on scores is
modelled exactly over `ℚ` (scores are small integers, so the only
approximation is ignoring IEEE-754 rounding in the average).  The
wall-clock-dependent `submissionDate` field is omitted from the record:
no property below mentions it.
-/

namespace KrishnaMaruti

/-- Model of JavaScript `String.prototype.trim`: strip whitespace from
both ends (the source only ever feeds it ASCII CSV text). -/
def jsTrim (s : String) : String :=
  String.mk (((s.data.dropWhile Char.isWhitespace).reverse.dropWhile
    Char.isWhitespace).reverse)

/-- Model of JavaScript `String.prototype.toLowerCase` on the ASCII
strings the pipeline handles. -/
def jsToLower (s : String) : String :=
  String.mk (s.data.map Char.toLower)

/-- Model of JavaScript `csvData.split('\n')`: split on each newline
character; an empty input yields one empty piece. -/
def splitNewlines : List Char → List (List Char)
  | [] => [[]]
  | c :: rest =>
    let r := splitNewlines rest
    if c = '\n' then [] :: r
    else (c :: r.headI) :: r.tail

/-! ## CSV parser (`parseCSV`, app.js lines 193–249)

The source splits the input on `'\n'`, drops lines that are blank after
trimming, and runs a character-level quote-aware splitter over each
remaining line.  A line's fields are trimmed; a parsed row is retained
only when it has at least 6 fields. -/

/-- The character loop of `parseCSV` for one line: `inQ` is the
`inQuotes` flag, `cur` the characters of the current field (in order),
`acc` the fields already completed.  A `'"'` outside quotes opens a
quoted region; inside quotes a doubled `'""'` emits one literal quote and
any other `'"'` closes the region; a `','` outside quotes ends the
current field; every other character is appended to the current field. -/
def parseLineChars : List Char → Bool → List Char → List String → List String
  | [], _, cur, acc => acc ++ [jsTrim (String.mk cur)]
  | [c], inQ, cur, acc =>
    if c = '"' then
      if inQ then acc ++ [jsTrim (String.mk cur)]
      else parseLineChars [] true cur acc
    else if c = ',' ∧ inQ = false then
      parseLineChars [] inQ [] (acc ++ [jsTrim (String.mk cur)])
    else
      parseLineChars [] inQ (cur ++ [c]) acc
  | c :: d :: rest, inQ, cur, acc =>
    if c = '"' then
      if inQ then
        if d = '"' then parseLineChars rest true (cur ++ ['"']) acc
        else parseLineChars (d :: rest) false cur acc
      else parseLineChars (d :: rest) true cur acc
    else if c = ',' ∧ inQ = false then
      parseLineChars (d :: rest) inQ [] (acc ++ [jsTrim (String.mk cur)])
    else
      parseLineChars (d :: rest) inQ (cur ++ [c]) acc

/-- Quote-aware split of one CSV line into trimmed fields. -/
def splitCSVLine (line : String) : List String :=
  parseLineChars line.data false [] []

/-- The lines `parseCSV` actually processes: split on newline, blank
lines (after trimming) removed. -/
def csvLines (csvData : String) : List String :=
  ((splitNewlines csvData.data).map String.mk).filter (fun l => jsTrim l ≠ "")

/-- `parseCSV` (app.js 193–249): the loop over lines, keeping only rows
with at least 6 fields.  The source's `try`/`catch` wrapper is modelled
separately by `parseCSVChecked`. -/
def parseCSV (csvData : String) : List (List String) :=
  (csvLines csvData).foldl
    (fun rows line =>
      let row := splitCSVLine line
      if 6 ≤ row.length then rows ++ [row] else rows) []

/-- The `try`/`catch` wrapper of `parseCSV`: the body consists only of
total operations (split, trim, character indexing, array push), so the
`catch` branch that would re-throw `"Failed to parse CSV data: …"` has no
reachable source of exceptions; the embedding records this by returning
the body's value directly. -/
def parseCSVChecked (csvData : String) : Except String (List (List String)) :=
  Except.ok (parseCSV csvData)

/-! ## Scoring initializer (`initializeCorrectAnswers`, app.js 252–279)

The source populates the globals `QUESTIONS` and `CORRECT_ANSWERS` and
returns a boolean; the embedding returns the pair of lists together with
that boolean.  When the row count is below 2 the globals are left at
their initial value `[]`. -/

/-- Model of `q.replace(/^\d+\.\s*/, '')`: strip one leading run of
digits followed by a period and optional whitespace; if the prefix does
not match, the string is unchanged. -/
def stripNumPrefix (s : String) : String :=
  let digits := s.data.takeWhile Char.isDigit
  let rest := s.data.dropWhile Char.isDigit
  if digits = [] then s
  else
    match rest with
    | '.' :: rest2 => String.mk (rest2.dropWhile Char.isWhitespace)
    | _ => s

/-- `initializeCorrectAnswers` (app.js 252–279).  Returns
`((questions, correctAnswers), ok)`.  Questions come from header cells
`6 … 6+min(10, headerLen−6)−1` with the numeric prefix stripped and the
result trimmed; correct answers are the trimmed cells of row index 1
over the same column range (JavaScript `slice` stops at the row's end,
so a short row yields a short key). -/
def initializeCorrectAnswers (rows : List (List String)) :
    (List String × List String) × Bool :=
  if rows.length < 2 then (([], []), false)
  else
    let headerRow := rows.getD 0 []
    let firstEmployeeRow := rows.getD 1 []
    let questionStartCol := 6
    let maxQuestions := min 10 (headerRow.length - questionStartCol)
    let questions :=
      ((headerRow.drop questionStartCol).take maxQuestions).map
        (fun q => jsTrim (stripNumPrefix q))
    let correctAnswers :=
      ((firstEmployeeRow.drop questionStartCol).take maxQuestions).map
        (fun answer => jsTrim answer)
    ((questions, correctAnswers),
      decide (0 < questions.length) && decide (0 < correctAnswers.length))

/-! ## Grading (`isAnswerCorrect`, app.js 282–289) -/

/-- `isAnswerCorrect` with the `CORRECT_ANSWERS` global passed
explicitly.  An index at or past the key's end, or a falsy (empty)
answer, is immediately incorrect; otherwise compare the lowercased,
trimmed answer with the lowercased, trimmed key entry. -/
def isAnswerCorrect (correctAnswers : List String) (userAnswer : String)
    (questionIndex : Nat) : Bool :=
  if correctAnswers.length ≤ questionIndex ∨ userAnswer = "" then false
  else
    decide (jsTrim (jsToLower userAnswer) =
      jsTrim (jsToLower (correctAnswers.getD questionIndex "")))

/-! ## Response mapper (`mapRowToTestResponse`, app.js 292–341) -/

/-- One element of the `answers` array built by `mapRowToTestResponse`. -/
structure AnswerEntry where
  questionIndex : Nat
  selectedAnswer : String
  isCorrect : Bool
deriving Repr, DecidableEq, Inhabited

/-- The result record built by `mapRowToTestResponse` (the
wall-clock-dependent `submissionDate` field is omitted). -/
structure TestResponse where
  fullName : String
  employeeId : String
  dateOfBirth : String
  department : String
  score : Nat
  answers : List AnswerEntry
  originalScore : String
  timestamp : String
  isReferenceEmployee : Bool
deriving Repr, DecidableEq, Inhabited

/-- `mapRowToTestResponse` (app.js 292–341) with the globals passed
explicitly.  Rows with fewer than 6 cells, or with an empty trimmed
full-name cell, yield nothing.  The answers are the cells of columns
`6 … 6+questions.length−1` (JavaScript `slice` stops at the row's end);
the reference flag forces every entry correct; the score is the number
of correct entries. -/
def mapRowToTestResponse (questions correctAnswers : List String)
    (row : List String) (isFirstEmployee : Bool) : Option TestResponse :=
  if row.length < 6 then none
  else
    let fullName := jsTrim (row.getD 2 "")
    if fullName = "" then none
    else
      let userAnswers := (row.drop 6).take questions.length
      let answers := userAnswers.enum.map (fun p =>
        { questionIndex := p.1
          selectedAnswer := jsTrim p.2
          isCorrect :=
            if isFirstEmployee then true
            else isAnswerCorrect correctAnswers (jsTrim p.2) p.1 : AnswerEntry })
      let calculatedScore := (answers.filter (fun a => a.isCorrect)).length
      some
        { fullName := fullName
          employeeId := jsTrim (row.getD 3 "")
          dateOfBirth := jsTrim (row.getD 4 "")
          department := jsTrim (row.getD 5 "")
          score := calculatedScore
          answers := answers
          originalScore := row.getD 1 ""
          timestamp := row.getD 0 ""
          isReferenceEmployee := isFirstEmployee }

/-! ## Sheet processing (`processSheetData`, app.js 344–371) -/

/-- `processSheetData` (app.js 344–371): with at most one row nothing is
processed (and the question/answer globals keep their initial value
`[]`); otherwise the initializer runs first, and on success each data
row (rows after the header) is mapped, the first one with the reference
flag; rows that map to nothing are skipped.  The returned pair carries
the (questions, correctAnswers) state alongside the response list. -/
def processSheetData (rows : List (List String)) :
    (List String × List String) × List TestResponse :=
  if rows.length ≤ 1 then (([], []), [])
  else
    let init := initializeCorrectAnswers rows
    if init.2 = false then (init.1, [])
    else
      let dataRows := rows.drop 1
      let responses := dataRows.enum.filterMap (fun p =>
        mapRowToTestResponse init.1.1 init.1.2 p.2 (decide (p.1 = 0)))
      (init.1, responses)

/-! ## Aggregator (`/api/dashboard-stats` handler, app.js 456–543)

Number arithmetic on scores is modelled exactly over `ℚ`;
`Math.round(x * 10) / 10` becomes `jsRound1`. -/

/-- `Math.round` on the nonnegative rationals arising here: round to the
nearest integer, halves up. -/
def jsMathRound (q : ℚ) : ℤ := ⌊q + 1 / 2⌋

/-- `Math.round(q * 10) / 10`: round to one decimal place. -/
def jsRound1 (q : ℚ) : ℚ := (jsMathRound (q * 10) : ℚ) / 10

/-- One element of the `departmentStats` array. -/
structure DeptStat where
  name : String
  totalCandidates : Nat
  passed : Nat
  failed : Nat
  averageScore : ℚ
deriving Repr, DecidableEq

/-- The statistics object assembled by the dashboard handler (the fields
the claims mention; `responses` is the input list itself and the
metadata block is request-scoped). -/
structure DashboardStats where
  totalResponses : Nat
  passedCount : Nat
  failedCount : Nat
  averageScore : ℚ
  departments : List String
  departmentStats : List DeptStat
  referenceEmployee : Option TestResponse
deriving Repr, DecidableEq

/-- `[...new Set(xs)]`: JavaScript `Set` iterates in insertion order, so
spreading it keeps the first occurrence of each value. -/
def setSpread (xs : List String) : List String :=
  xs.foldl (fun acc d => if d ∈ acc then acc else acc ++ [d]) []

/-- The `/api/dashboard-stats` computation (app.js 463–528): the
zero-record branch returns the all-zero summary with a `null` reference
record; otherwise totals, the pass threshold 6, the rounded average, the
distinct non-empty departments and the per-department statistics are
computed from the response list. -/
def dashboardStats (testResponses : List TestResponse) : DashboardStats :=
  if testResponses.length = 0 then
    { totalResponses := 0, passedCount := 0, failedCount := 0, averageScore := 0
      departments := [], departmentStats := [], referenceEmployee := none }
  else
    let totalResponses := testResponses.length
    let passedCount := (testResponses.filter (fun r => 6 ≤ r.score)).length
    let failedCount := totalResponses - passedCount
    let averageScore : ℚ :=
      ((testResponses.map (fun r => (r.score : ℚ))).sum) / (totalResponses : ℚ)
    let departments :=
      setSpread ((testResponses.map (fun r => r.department)).filter (fun d => d ≠ ""))
    let departmentStats := departments.map (fun dept =>
      let deptResponses := testResponses.filter (fun r => r.department = dept)
      let deptPassed := (deptResponses.filter (fun r => 6 ≤ r.score)).length
      let deptAverage : ℚ :=
        ((deptResponses.map (fun r => (r.score : ℚ))).sum) / (deptResponses.length : ℚ)
      { name := dept
        totalCandidates := deptResponses.length
        passed := deptPassed
        failed := deptResponses.length - deptPassed
        averageScore := jsRound1 deptAverage : DeptStat })
    { totalResponses := totalResponses
      passedCount := passedCount
      failedCount := failedCount
      averageScore := jsRound1 averageScore
      departments := departments
      departmentStats := departmentStats
      referenceEmployee := testResponses.head? }

/-! ## Theorems -/

/-- The row loop of `parseCSV` keeps, in order, exactly the parsed lines
with at least 6 fields. -/
theorem parseCSV_foldl_eq (L : List String) (rows0 : List (List String)) :
    L.foldl
      (fun rows line =>
        let row := splitCSVLine line
        if 6 ≤ row.length then rows ++ [row] else rows) rows0
    = rows0 ++ (L.map splitCSVLine).filter (fun r => 6 ≤ r.length) := by
  induction L generalizing rows0 with
  | nil => simp
  | cons l ls ih =>
    by_cases h : 6 ≤ (splitCSVLine l).length
    · simp [List.foldl_cons, h, ih, List.filter_cons]
    · simp [List.foldl_cons, h, ih, List.filter_cons]

/-- C5: for every input text, `parseCSV` silently drops every line whose
quote-aware split yields fewer than 6 fields — its output is exactly the
per-line splits filtered to those with at least 6 fields — and hence
every row it returns has at least 6 cells. -/
theorem C5_short_rows_dropped (s : String) :
    parseCSV s =
      ((csvLines s).map splitCSVLine).filter (fun r => 6 ≤ r.length) ∧
    ∀ r ∈ parseCSV s, 6 ≤ r.length := by
  have hchar : parseCSV s =
      ((csvLines s).map splitCSVLine).filter (fun r => 6 ≤ r.length) := by
    unfold parseCSV
    exact parseCSV_foldl_eq (csvLines s) []
  refine ⟨hchar, fun r hr => ?_⟩
  rw [hchar] at hr
  simpa using List.of_mem_filter hr

theorem C5_short_rows_dropped_witness :
    6 ≤ (["a", "b", "c", "d", "e", "f"] : List String).length :=
  (C5_short_rows_dropped "a,b,c,d,e,f\nx,y").2 ["a", "b", "c", "d", "e", "f"]
    (by decide)

/-- C8: the initializer returns `false` (it is a total function, so it
never throws) exactly when the table has fewer than 2 rows or the
resulting question count or answer count is zero; otherwise it returns
`true`. -/
theorem C8_initializer_false_iff (rows : List (List String)) :
    (initializeCorrectAnswers rows).2 = false ↔
      (rows.length < 2 ∨ (initializeCorrectAnswers rows).1.1.length = 0 ∨
        (initializeCorrectAnswers rows).1.2.length = 0) := by
  unfold initializeCorrectAnswers
  by_cases h : rows.length < 2
  · simp [h]
  · simp only [h, if_false]
    simp [Bool.and_eq_false_iff, Nat.pos_iff_ne_zero]
    omega

/-- C9: an empty (or absent, which the mapper normalizes to empty)
answer is always graded incorrect — even when the key entry at that
index is itself empty — and any index at or beyond the key's length is
always graded incorrect. -/
theorem C9_blank_never_matches (key : List String) (i : Nat) (ua : String) :
    isAnswerCorrect key "" i = false ∧
    (key.length ≤ i → isAnswerCorrect key ua i = false) := by
  constructor
  · simp [isAnswerCorrect]
  · intro h
    simp [isAnswerCorrect, h]

theorem C9_blank_never_matches_witness :
    isAnswerCorrect [""] "" 0 = false ∧ isAnswerCorrect [""] "x" 1 = false :=
  ⟨(C9_blank_never_matches [""] 0 "x").1,
   (C9_blank_never_matches [""] 1 "x").2 (by decide)⟩

/-- C10: the CSV parser is total — for every input string it returns a
row list, and the `catch` branch that would wrap a fault as a parse
error is unreachable, because every operation in the body (splitting,
trimming, character indexing, pushing) is total. -/
theorem C10_parser_total (s : String) :
    parseCSVChecked s = Except.ok (parseCSV s) := rfl

/-- Unfolding lemma for a successful `mapRowToTestResponse` call: the
`answers` array enumerates the cells of columns `6 … 6+questions.length−1`
(as many as the row actually has), and the score counts its correct
entries. -/
theorem mapRow_some_eq (questions correctAnswers : List String)
    (row : List String) (flag : Bool) (rec : TestResponse)
    (h : mapRowToTestResponse questions correctAnswers row flag = some rec) :
    rec.answers = ((row.drop 6).take questions.length).enum.map (fun p =>
        { questionIndex := p.1
          selectedAnswer := jsTrim p.2
          isCorrect :=
            if flag then true
            else isAnswerCorrect correctAnswers (jsTrim p.2) p.1 : AnswerEntry }) ∧
    rec.score = (rec.answers.filter (fun a => a.isCorrect)).length := by
  by_cases h6 : row.length < 6
  · exfalso
    unfold mapRowToTestResponse at h
    rw [if_pos h6] at h
    exact Option.noConfusion h
  · by_cases hname : jsTrim (row.getD 2 "") = ""
    · exfalso
      unfold mapRowToTestResponse at h
      rw [if_neg h6] at h
      simp only [hname, if_true] at h
      exact Option.noConfusion h
    · unfold mapRowToTestResponse at h
      rw [if_neg h6] at h
      simp only [hname, if_false, Option.some.injEq] at h
      subst h
      exact ⟨rfl, rfl⟩

/-- C1 fails as stated: a table whose header has 8 columns (2 questions)
but whose reference row has only 7 cells (1 answer cell) still yields a
reference record, and that record's score is 1, not the question count
2 — JavaScript `slice` truncates at the row's end instead of padding. -/
theorem C1_counterexample :
    ((processSheetData
        [["T", "S", "Name", "ID", "DOB", "Dept", "1. Q1", "2. Q2"],
         ["t", "", "Alice", "1", "d", "IT", "A"]]).2.map
        (fun r => (r.isReferenceEmployee, r.score)) = [(true, 1)]) ∧
    (processSheetData
        [["T", "S", "Name", "ID", "DOB", "Dept", "1. Q1", "2. Q2"],
         ["t", "", "Alice", "1", "d", "IT", "A"]]).1.1.length = 2 := by
  decide

/-- C1 (amended): whenever the reference row (mapped with the reference
flag set) yields a Result record, every answer entry of that record is
marked correct, and its score equals the number of answer cells the row
actually has in the question range, `min questions.length (row.length − 6)`;
this equals the question count exactly when the row has at least
`6 + questions.length` cells (so a reference row shorter than the header
scores below the question count). -/
theorem C1_amended_reference_score (questions correctAnswers : List String)
    (row : List String) (rec : TestResponse)
    (h : mapRowToTestResponse questions correctAnswers row true = some rec) :
    (∀ a ∈ rec.answers, a.isCorrect = true) ∧
    rec.score = min questions.length (row.length - 6) ∧
    (6 + questions.length ≤ row.length → rec.score = questions.length) := by
  obtain ⟨hans, hscore⟩ := mapRow_some_eq questions correctAnswers row true rec h
  have hall : ∀ a ∈ rec.answers, a.isCorrect = true := by
    rw [hans]
    intro a ha
    simp only [List.mem_map] at ha
    obtain ⟨p, _, rfl⟩ := ha
    simp
  have hlen : rec.score = min questions.length (row.length - 6) := by
    rw [hscore, List.filter_eq_self.mpr hall, hans]
    simp [List.enum_length, List.length_take, List.length_drop]
  refine ⟨hall, hlen, fun hle => ?_⟩
  rw [hlen]
  omega

theorem C1_amended_reference_score_witness :
    (∀ a ∈ (⟨"Alice", "1", "d", "IT", 2, [⟨0, "A", true⟩, ⟨1, "B", true⟩],
        "", "t", true⟩ : TestResponse).answers, a.isCorrect = true) ∧
    (⟨"Alice", "1", "d", "IT", 2, [⟨0, "A", true⟩, ⟨1, "B", true⟩],
        "", "t", true⟩ : TestResponse).score =
      min (["Q1", "Q2"] : List String).length
        ((["t", "", "Alice", "1", "d", "IT", "A", "B"] : List String).length - 6) ∧
    (6 + (["Q1", "Q2"] : List String).length ≤
        (["t", "", "Alice", "1", "d", "IT", "A", "B"] : List String).length →
      (⟨"Alice", "1", "d", "IT", 2, [⟨0, "A", true⟩, ⟨1, "B", true⟩],
          "", "t", true⟩ : TestResponse).score = (["Q1", "Q2"] : List String).length) :=
  C1_amended_reference_score ["Q1", "Q2"] ["A", "B"]
    ["t", "", "Alice", "1", "d", "IT", "A", "B"]
    ⟨"Alice", "1", "d", "IT", 2, [⟨0, "A", true⟩, ⟨1, "B", true⟩], "", "t", true⟩
    (by decide)

/-- C2 fails as stated: with a header of 8 columns (question count
`min 10 (8−6) = 2`) and a row 1 of only 7 cells, the initializer's
answer key has length 1, not 2 — JavaScript `slice` stops at the row's
end rather than defaulting missing cells to the empty string. -/
theorem C2_counterexample :
    (initializeCorrectAnswers
        [["T", "S", "Name", "ID", "DOB", "Dept", "1. Q1", "2. Q2"],
         ["t", "", "Alice", "1", "d", "IT", "A"]]).1.2.length = 1 ∧
    min 10
      ((["T", "S", "Name", "ID", "DOB", "Dept", "1. Q1", "2. Q2"] :
        List String).length - 6) = 2 := by
  decide

/-- C2 (amended): for a table with at least 2 rows whose header has at
least 7 columns, the question list has length `min 10 (headerCols − 6)`,
the answer key has length `min (min 10 (headerCols − 6)) (row1Cols − 6)`
(shorter than the question list when row 1 is shorter than the header —
missing cells are dropped, not defaulted), and each key cell is the
trimmed cell of row index 1 at column `6 + i`. -/
theorem C2_amended_initializer (rows : List (List String))
    (h2 : 2 ≤ rows.length) (h7 : 7 ≤ (rows.getD 0 []).length) :
    (initializeCorrectAnswers rows).1.1.length =
      min 10 ((rows.getD 0 []).length - 6) ∧
    (initializeCorrectAnswers rows).1.2.length =
      min (min 10 ((rows.getD 0 []).length - 6)) ((rows.getD 1 []).length - 6) ∧
    ∀ i, i < (initializeCorrectAnswers rows).1.2.length →
      (initializeCorrectAnswers rows).1.2.getD i "" =
        jsTrim ((rows.getD 1 []).getD (6 + i) "") := by
  have hlt : ¬ rows.length < 2 := by omega
  unfold initializeCorrectAnswers
  simp only [hlt, if_false]
  refine ⟨?_, ?_, ?_⟩
  · simp only [List.length_map, List.length_take, List.length_drop]
    omega
  · simp only [List.length_map, List.length_take, List.length_drop]
  · intro i hi
    simp only [List.length_map, List.length_take, List.length_drop] at hi
    have h6i : 6 + i < (rows.getD 1 []).length := by omega
    have hiL : i < (((rows.getD 1 []).drop 6).take
        (min 10 ((rows.getD 0 []).length - 6))).length := by
      simp only [List.length_take, List.length_drop]
      omega
    rw [List.getD_eq_getElem _ _ (by simpa using hi),
      List.getD_eq_getElem _ _ h6i]
    simp [List.getElem_take, List.getElem_drop]

theorem C2_amended_initializer_witness :
    (initializeCorrectAnswers
        [["T", "S", "Name", "ID", "DOB", "Dept", "1. Q1", "2. Q2"],
         ["t", "", "Alice", "1", "d", "IT", "A"]]).1.1.length =
      min 10 (((["T", "S", "Name", "ID", "DOB", "Dept", "1. Q1", "2. Q2"]) :
        List String).length - 6) ∧
    (initializeCorrectAnswers
        [["T", "S", "Name", "ID", "DOB", "Dept", "1. Q1", "2. Q2"],
         ["t", "", "Alice", "1", "d", "IT", "A"]]).1.2.length =
      min (min 10 (((["T", "S", "Name", "ID", "DOB", "Dept", "1. Q1", "2. Q2"]) :
          List String).length - 6))
        (((["t", "", "Alice", "1", "d", "IT", "A"]) : List String).length - 6) ∧
    ∀ i, i < (initializeCorrectAnswers
        [["T", "S", "Name", "ID", "DOB", "Dept", "1. Q1", "2. Q2"],
         ["t", "", "Alice", "1", "d", "IT", "A"]]).1.2.length →
      (initializeCorrectAnswers
        [["T", "S", "Name", "ID", "DOB", "Dept", "1. Q1", "2. Q2"],
         ["t", "", "Alice", "1", "d", "IT", "A"]]).1.2.getD i "" =
        jsTrim (((["t", "", "Alice", "1", "d", "IT", "A"]) : List String).getD (6 + i) "") := by
  have h := C2_amended_initializer
    [["T", "S", "Name", "ID", "DOB", "Dept", "1. Q1", "2. Q2"],
     ["t", "", "Alice", "1", "d", "IT", "A"]] (by decide) (by decide)
  simpa using h

/-- Under a successful run of the initializer, the answer key is exactly
the trimmed question-range slice of row index 1, one cell per question
(as far as the row reaches). -/
theorem init_key_eq (rows : List (List String)) (h2 : ¬ rows.length < 2) :
    (initializeCorrectAnswers rows).1.2 =
      (((rows.getD 1 []).drop 6).take
        (initializeCorrectAnswers rows).1.1.length).map jsTrim := by
  unfold initializeCorrectAnswers
  simp only [h2, if_false, List.length_map, List.length_take, List.length_drop]
  have hmin : min (min 10 ((rows.getD 0 []).length - 6)) ((rows.getD 0 []).length - 6)
      = min 10 ((rows.getD 0 []).length - 6) := by omega
  rw [hmin]

/-- C3 fails as stated: a reference row whose single answer cell is
blank initializes the key to `[""]`, and grading that same row with the
reference flag NOT set marks the answer incorrect (the grader rejects
empty answers before comparing), so the round trip scores 0 of 1, not
100%. -/
theorem C3_counterexample :
    (initializeCorrectAnswers
        [["T", "S", "Name", "ID", "DOB", "Dept", "1. Q1"],
         ["t", "", "Alice", "1", "d", "IT", ""]]).2 = true ∧
    ((mapRowToTestResponse
        (initializeCorrectAnswers
          [["T", "S", "Name", "ID", "DOB", "Dept", "1. Q1"],
           ["t", "", "Alice", "1", "d", "IT", ""]]).1.1
        (initializeCorrectAnswers
          [["T", "S", "Name", "ID", "DOB", "Dept", "1. Q1"],
           ["t", "", "Alice", "1", "d", "IT", ""]]).1.2
        (["t", "", "Alice", "1", "d", "IT", ""]) false).map
      (fun r => (r.score, r.answers.map (fun e => e.isCorrect)))) = some (0, [false]) ∧
    (initializeCorrectAnswers
        [["T", "S", "Name", "ID", "DOB", "Dept", "1. Q1"],
         ["t", "", "Alice", "1", "d", "IT", ""]]).1.1.length = 1 := by
  decide

/-- C3 (amended): grading the answer-key respondent's own row (row
index 1) with the reference flag NOT set marks correct exactly those
answers whose trimmed cell is non-empty (a blank cell fails against its
own blank key entry); the score is the number of non-blank answers, and
the round trip reaches 100% — score equal to the question count — when
the row covers the whole question range and every answer cell in it is
non-blank after trimming. -/
theorem C3_amended_roundtrip (rows : List (List String)) (rec : TestResponse)
    (hinit : (initializeCorrectAnswers rows).2 = true)
    (h : mapRowToTestResponse (initializeCorrectAnswers rows).1.1
      (initializeCorrectAnswers rows).1.2 (rows.getD 1 []) false = some rec) :
    (∀ e ∈ rec.answers, e.isCorrect = decide (e.selectedAnswer ≠ "")) ∧
    rec.score = (rec.answers.filter (fun e => e.selectedAnswer ≠ "")).length ∧
    (((∀ e ∈ rec.answers, e.selectedAnswer ≠ "") ∧
        6 + (initializeCorrectAnswers rows).1.1.length ≤ (rows.getD 1 []).length) →
      rec.score = (initializeCorrectAnswers rows).1.1.length) := by
  have h2 : ¬ rows.length < 2 := by
    intro hlt
    rw [show initializeCorrectAnswers rows = (([], []), false) from by
      unfold initializeCorrectAnswers; rw [if_pos hlt]] at hinit
    exact Bool.noConfusion hinit
  have hk := init_key_eq rows h2
  obtain ⟨hans, hscore⟩ := mapRow_some_eq _ _ _ false rec h
  have hcorr : ∀ e ∈ rec.answers, e.isCorrect = decide (e.selectedAnswer ≠ "") := by
    rw [hans]
    intro e he
    simp only [List.mem_map] at he
    obtain ⟨p, hp, rfl⟩ := he
    rw [List.mem_enum_iff_getElem?] at hp
    obtain ⟨hplen, hpget⟩ := List.getElem?_eq_some.mp hp
    simp only [Bool.false_eq_true, if_false]
    by_cases hblank : jsTrim p.2 = ""
    · simp [isAnswerCorrect, hblank]
    · have hik : p.1 < (initializeCorrectAnswers rows).1.2.length := by
        rw [hk, List.length_map]
        exact hplen
      have hgetd : (initializeCorrectAnswers rows).1.2[p.1]?.getD "" = jsTrim p.2 := by
        rw [hk, List.getElem?_map, hp]
        rfl
      simp [isAnswerCorrect, List.getD_eq_getElem?_getD, hgetd, hblank,
        Nat.not_le.mpr hik]
  refine ⟨hcorr, ?_, ?_⟩
  · rw [hscore]
    congr 1
    exact List.filter_congr hcorr
  · rintro ⟨hnonblank, hle⟩
    rw [hscore, List.filter_eq_self.mpr ?_, hans]
    · simp only [List.length_map, List.enum_length, List.length_take, List.length_drop]
      omega
    · intro e he
      rw [hcorr e he]
      simpa using hnonblank e he

theorem C3_amended_roundtrip_witness :
    (∀ e ∈ (⟨"Alice", "1", "d", "IT", 2, [⟨0, "A", true⟩, ⟨1, "B", true⟩],
        "", "t", false⟩ : TestResponse).answers,
      e.isCorrect = decide (e.selectedAnswer ≠ "")) ∧
    (⟨"Alice", "1", "d", "IT", 2, [⟨0, "A", true⟩, ⟨1, "B", true⟩],
        "", "t", false⟩ : TestResponse).score =
      ((⟨"Alice", "1", "d", "IT", 2, [⟨0, "A", true⟩, ⟨1, "B", true⟩],
        "", "t", false⟩ : TestResponse).answers.filter
          (fun e => e.selectedAnswer ≠ "")).length ∧
    (((∀ e ∈ (⟨"Alice", "1", "d", "IT", 2, [⟨0, "A", true⟩, ⟨1, "B", true⟩],
          "", "t", false⟩ : TestResponse).answers, e.selectedAnswer ≠ "") ∧
        6 + (initializeCorrectAnswers
          [["T", "S", "Name", "ID", "DOB", "Dept", "1. Q1", "2. Q2"],
           ["t", "", "Alice", "1", "d", "IT", "A", "B"],
           ["t", "", "Bob", "2", "d", "IT", "A", "C"]]).1.1.length ≤
          (([["T", "S", "Name", "ID", "DOB", "Dept", "1. Q1", "2. Q2"],
             ["t", "", "Alice", "1", "d", "IT", "A", "B"],
             ["t", "", "Bob", "2", "d", "IT", "A", "C"]] :
            List (List String)).getD 1 []).length) →
      (⟨"Alice", "1", "d", "IT", 2, [⟨0, "A", true⟩, ⟨1, "B", true⟩],
          "", "t", false⟩ : TestResponse).score =
        (initializeCorrectAnswers
          [["T", "S", "Name", "ID", "DOB", "Dept", "1. Q1", "2. Q2"],
           ["t", "", "Alice", "1", "d", "IT", "A", "B"],
           ["t", "", "Bob", "2", "d", "IT", "A", "C"]]).1.1.length) :=
  C3_amended_roundtrip
    [["T", "S", "Name", "ID", "DOB", "Dept", "1. Q1", "2. Q2"],
     ["t", "", "Alice", "1", "d", "IT", "A", "B"],
     ["t", "", "Bob", "2", "d", "IT", "A", "C"]]
    ⟨"Alice", "1", "d", "IT", 2, [⟨0, "A", true⟩, ⟨1, "B", true⟩], "", "t", false⟩
    (by decide) (by decide)

/-- C4 fails as stated: when the answer key entry and a non-reference
row's answer cell are both blank, the lowercased trimmed strings are
equal, yet the entry is marked incorrect (the grader rejects empty
answers before comparing) — so "correct iff lowercase-trim equality"
does not hold. -/
theorem C4_counterexample :
    ((processSheetData
        [["T", "S", "Name", "ID", "DOB", "Dept", "1. Q1"],
         ["t", "", "Alice", "1", "d", "IT", ""],
         ["t", "", "Bob", "2", "d", "IT", ""]]).2.map
      (fun r => (r.isReferenceEmployee,
        r.answers.map (fun e => (e.selectedAnswer, e.isCorrect))))) =
      [(true, [("", true)]), (false, [("", false)])] ∧
    (processSheetData
        [["T", "S", "Name", "ID", "DOB", "Dept", "1. Q1"],
         ["t", "", "Alice", "1", "d", "IT", ""],
         ["t", "", "Bob", "2", "d", "IT", ""]]).1.2 = [""] ∧
    jsTrim (jsToLower "") =
      jsTrim (jsToLower (((processSheetData
        [["T", "S", "Name", "ID", "DOB", "Dept", "1. Q1"],
         ["t", "", "Alice", "1", "d", "IT", ""],
         ["t", "", "Bob", "2", "d", "IT", ""]]).1.2).getD 0 "")) := by
  decide

/-- C4 (amended): for a non-reference mapped row and any index `i`
within its answer list, the entry at `i` is marked correct if and only
if `i` is within the answer key, the entry's (trimmed) answer is
non-empty, AND the lowercased trimmed answer equals the lowercased
trimmed key entry at `i`; the record's score equals the count of entries
marked correct. -/
theorem C4_amended_grading (questions correctAnswers row : List String)
    (rec : TestResponse)
    (h : mapRowToTestResponse questions correctAnswers row false = some rec) :
    (∀ i, i < rec.answers.length →
      ((rec.answers.getD i default).isCorrect = true ↔
        (i < correctAnswers.length ∧
          (rec.answers.getD i default).selectedAnswer ≠ "" ∧
          jsTrim (jsToLower ((rec.answers.getD i default).selectedAnswer)) =
            jsTrim (jsToLower (correctAnswers.getD i ""))))) ∧
    rec.score = (rec.answers.filter (fun a => a.isCorrect)).length := by
  obtain ⟨hans, hscore⟩ := mapRow_some_eq questions correctAnswers row false rec h
  refine ⟨?_, hscore⟩
  intro i hi
  rw [hans] at hi
  have hiL : i < ((row.drop 6).take questions.length).length := by
    simpa using hi
  have h6i : 6 + i < row.length := by
    simp only [List.length_take, List.length_drop] at hiL
    omega
  rw [hans, List.getD_eq_getElem _ _ hi]
  simp only [List.getElem_map, List.getElem_enum, Bool.false_eq_true, if_false]
  by_cases hc1 : correctAnswers.length ≤ i
  · simp [isAnswerCorrect, hc1, Nat.not_lt.mpr hc1]
  · by_cases hc2 : jsTrim row[6 + i] = ""
    · simp [isAnswerCorrect, hc2]
    · simp [isAnswerCorrect, hc1, hc2, Nat.not_le.mp hc1, and_assoc]

theorem C4_amended_grading_witness :
    (∀ i, i < (⟨"Bob", "2", "d", "IT", 1, [⟨0, "A", true⟩, ⟨1, "C", false⟩],
        "", "t", false⟩ : TestResponse).answers.length →
      (((⟨"Bob", "2", "d", "IT", 1, [⟨0, "A", true⟩, ⟨1, "C", false⟩],
          "", "t", false⟩ : TestResponse).answers.getD i default).isCorrect = true ↔
        (i < (["A", "B"] : List String).length ∧
          ((⟨"Bob", "2", "d", "IT", 1, [⟨0, "A", true⟩, ⟨1, "C", false⟩],
            "", "t", false⟩ : TestResponse).answers.getD i default).selectedAnswer ≠ "" ∧
          jsTrim (jsToLower (((⟨"Bob", "2", "d", "IT", 1,
              [⟨0, "A", true⟩, ⟨1, "C", false⟩],
              "", "t", false⟩ : TestResponse).answers.getD i default).selectedAnswer)) =
            jsTrim (jsToLower ((["A", "B"] : List String).getD i ""))))) ∧
    (⟨"Bob", "2", "d", "IT", 1, [⟨0, "A", true⟩, ⟨1, "C", false⟩],
        "", "t", false⟩ : TestResponse).score =
      ((⟨"Bob", "2", "d", "IT", 1, [⟨0, "A", true⟩, ⟨1, "C", false⟩],
        "", "t", false⟩ : TestResponse).answers.filter
          (fun a => a.isCorrect)).length :=
  C4_amended_grading ["Q1", "Q2"] ["A", "B"] ["t", "", "Bob", "2", "d", "IT", "A", "C"]
    ⟨"Bob", "2", "d", "IT", 1, [⟨0, "A", true⟩, ⟨1, "C", false⟩], "", "t", false⟩
    (by decide)

/-- Spec-side formulation of "the distinct non-empty values in order of
first occurrence": keep each head and strip its later repeats. -/
def distinctInOrder : List String → List String
  | [] => []
  | d :: ds => d :: (distinctInOrder ds).filter (fun x => x ≠ d)

/-- `distinctInOrder` commutes with any filter. -/
theorem distinctInOrder_filter (p : String → Bool) (l : List String) :
    distinctInOrder (l.filter p) = (distinctInOrder l).filter p := by
  induction l with
  | nil => rfl
  | cons x xs ih =>
    by_cases hx : p x
    · rw [List.filter_cons_of_pos hx]
      simp only [distinctInOrder, ih, List.filter_cons_of_pos hx]
      rw [List.filter_filter, List.filter_filter]
      congr 1
      apply List.filter_congr
      intro y _
      exact Bool.and_comm _ _
    · rw [Bool.not_eq_true] at hx
      have hx2 : ¬ p x = true := by simp [hx]
      rw [List.filter_cons_of_neg hx2]
      simp only [distinctInOrder, ih, List.filter_cons_of_neg hx2]
      rw [List.filter_filter]
      apply List.filter_congr
      intro y _
      by_cases hy : y = x
      · subst hy
        simp [hx]
      · simp [hy]

/-- The `Set`-spread accumulator loop, with an arbitrary starting
accumulator: it appends exactly the first occurrences not already
seen. -/
theorem setSpread_go (l : List String) (acc : List String) :
    l.foldl (fun acc d => if d ∈ acc then acc else acc ++ [d]) acc =
      acc ++ distinctInOrder (l.filter (fun d => d ∉ acc)) := by
  induction l generalizing acc with
  | nil => simp [distinctInOrder]
  | cons x xs ih =>
    by_cases hx : x ∈ acc
    · rw [List.foldl_cons, if_pos hx, ih,
        List.filter_cons_of_neg (by simpa using hx)]
    · rw [List.foldl_cons, if_neg hx, ih,
        List.filter_cons_of_pos (by simpa using hx)]
      simp only [distinctInOrder, List.append_assoc, List.singleton_append]
      congr 2
      have hsplit : (fun d => decide (d ∉ acc ++ [x])) =
          fun d => decide (d ≠ x) && decide (d ∉ acc) := by
        funext d
        by_cases h1 : d ∈ acc <;> by_cases h2 : d = x <;> simp [h1, h2]
      rw [hsplit, ← List.filter_filter, distinctInOrder_filter]

/-- `[...new Set(xs)]` keeps the distinct values of `xs` in order of
first occurrence. -/
theorem setSpread_eq_distinctInOrder (l : List String) :
    setSpread l = distinctInOrder l := by
  unfold setSpread
  rw [setSpread_go]
  simp

/-- C6: for a non-empty response list, the dashboard aggregation yields
total = record count, passed = count of records with score ≥ 6,
failed = total − passed, average = the arithmetic mean of the scores
rounded to one decimal place half-up (number arithmetic modelled exactly
over ℚ), departments = the distinct non-empty department values in order
of first occurrence, and department stats computed the same way over the
records whose department matches exactly. -/
theorem C6_dashboard_stats (rs : List TestResponse) (h : rs ≠ []) :
    (dashboardStats rs).totalResponses = rs.length ∧
    (dashboardStats rs).passedCount = rs.countP (fun r => 6 ≤ r.score) ∧
    (dashboardStats rs).failedCount =
      rs.length - rs.countP (fun r => 6 ≤ r.score) ∧
    (dashboardStats rs).averageScore =
      (⌊(rs.map (fun r => (r.score : ℚ))).sum / (rs.length : ℚ) * 10 + 1 / 2⌋ : ℚ)
        / 10 ∧
    (dashboardStats rs).departments =
      distinctInOrder ((rs.map (fun r => r.department)).filter (fun d => d ≠ "")) ∧
    (dashboardStats rs).departmentStats =
      (distinctInOrder
          ((rs.map (fun r => r.department)).filter (fun d => d ≠ ""))).map
        (fun dept =>
          { name := dept
            totalCandidates := (rs.filter (fun r => r.department = dept)).length
            passed := (rs.filter (fun r => r.department = dept)).countP
              (fun r => 6 ≤ r.score)
            failed := (rs.filter (fun r => r.department = dept)).length -
              (rs.filter (fun r => r.department = dept)).countP
                (fun r => 6 ≤ r.score)
            averageScore :=
              (⌊((rs.filter (fun r => r.department = dept)).map
                    (fun r => (r.score : ℚ))).sum /
                  (((rs.filter (fun r => r.department = dept)).length : ℚ)) * 10 +
                  1 / 2⌋ : ℚ) / 10 : DeptStat }) := by
  have hlen : ¬ rs.length = 0 := by simpa [List.length_eq_zero] using h
  unfold dashboardStats
  rw [if_neg hlen]
  refine ⟨rfl, ?_, ?_, rfl, setSpread_eq_distinctInOrder _, ?_⟩
  · rw [List.countP_eq_length_filter]
  · rw [List.countP_eq_length_filter]
  · show (setSpread ((rs.map (fun r => r.department)).filter (fun d => d ≠ ""))).map _ = _
    rw [setSpread_eq_distinctInOrder]
    apply List.map_congr_left
    intro dept _
    simp [List.countP_eq_length_filter, jsRound1, jsMathRound]

theorem C6_dashboard_stats_witness :
    (dashboardStats [⟨"A", "1", "d", "IT", 7, [], "", "t", false⟩]).totalResponses =
      ([⟨"A", "1", "d", "IT", 7, [], "", "t", false⟩] : List TestResponse).length ∧
    (dashboardStats [⟨"A", "1", "d", "IT", 7, [], "", "t", false⟩]).passedCount =
      ([⟨"A", "1", "d", "IT", 7, [], "", "t", false⟩] : List TestResponse).countP
        (fun r => 6 ≤ r.score) ∧
    (dashboardStats [⟨"A", "1", "d", "IT", 7, [], "", "t", false⟩]).failedCount =
      ([⟨"A", "1", "d", "IT", 7, [], "", "t", false⟩] : List TestResponse).length -
        ([⟨"A", "1", "d", "IT", 7, [], "", "t", false⟩] : List TestResponse).countP
          (fun r => 6 ≤ r.score) ∧
    (dashboardStats [⟨"A", "1", "d", "IT", 7, [], "", "t", false⟩]).averageScore =
      (⌊(([⟨"A", "1", "d", "IT", 7, [], "", "t", false⟩] : List TestResponse).map
            (fun r => (r.score : ℚ))).sum /
          ((([⟨"A", "1", "d", "IT", 7, [], "", "t", false⟩] :
            List TestResponse).length : ℚ)) * 10 + 1 / 2⌋ : ℚ) / 10 ∧
    (dashboardStats [⟨"A", "1", "d", "IT", 7, [], "", "t", false⟩]).departments =
      distinctInOrder
        ((([⟨"A", "1", "d", "IT", 7, [], "", "t", false⟩] : List TestResponse).map
          (fun r => r.department)).filter (fun d => d ≠ "")) ∧
    (dashboardStats [⟨"A", "1", "d", "IT", 7, [], "", "t", false⟩]).departmentStats =
      (distinctInOrder
          ((([⟨"A", "1", "d", "IT", 7, [], "", "t", false⟩] : List TestResponse).map
            (fun r => r.department)).filter (fun d => d ≠ ""))).map
        (fun dept =>
          { name := dept
            totalCandidates := (([⟨"A", "1", "d", "IT", 7, [], "", "t", false⟩] :
              List TestResponse).filter (fun r => r.department = dept)).length
            passed := (([⟨"A", "1", "d", "IT", 7, [], "", "t", false⟩] :
              List TestResponse).filter (fun r => r.department = dept)).countP
                (fun r => 6 ≤ r.score)
            failed := (([⟨"A", "1", "d", "IT", 7, [], "", "t", false⟩] :
              List TestResponse).filter (fun r => r.department = dept)).length -
                (([⟨"A", "1", "d", "IT", 7, [], "", "t", false⟩] :
                  List TestResponse).filter (fun r => r.department = dept)).countP
                    (fun r => 6 ≤ r.score)
            averageScore :=
              (⌊((([⟨"A", "1", "d", "IT", 7, [], "", "t", false⟩] :
                    List TestResponse).filter (fun r => r.department = dept)).map
                    (fun r => (r.score : ℚ))).sum /
                  (((([⟨"A", "1", "d", "IT", 7, [], "", "t", false⟩] :
                    List TestResponse).filter
                      (fun r => r.department = dept)).length : ℚ)) * 10 +
                  1 / 2⌋ : ℚ) / 10 : DeptStat }) :=
  C6_dashboard_stats [⟨"A", "1", "d", "IT", 7, [], "", "t", false⟩]
    (List.cons_ne_nil _ _)

/-- C7: a table with exactly one retained row (header only) flows
through the pipeline with no error: the question/answer state stays
empty, no records are produced, and the dashboard computation returns
the all-zero summary with empty department lists and a null reference
record. -/
theorem C7_header_only_all_zero (rows : List (List String))
    (h : rows.length = 1) :
    (processSheetData rows).1 = ([], []) ∧
    (processSheetData rows).2 = [] ∧
    dashboardStats (processSheetData rows).2 =
      { totalResponses := 0, passedCount := 0, failedCount := 0, averageScore := 0
        departments := [], departmentStats := [], referenceEmployee := none } := by
  have h1 : rows.length ≤ 1 := le_of_eq h
  unfold processSheetData
  rw [if_pos h1]
  exact ⟨rfl, rfl, rfl⟩

theorem C7_header_only_all_zero_witness :
    (processSheetData [["T", "S", "Name", "ID", "DOB", "Dept", "1. Q1"]]).1 =
      ([], []) ∧
    (processSheetData [["T", "S", "Name", "ID", "DOB", "Dept", "1. Q1"]]).2 = [] ∧
    dashboardStats
        (processSheetData [["T", "S", "Name", "ID", "DOB", "Dept", "1. Q1"]]).2 =
      { totalResponses := 0, passedCount := 0, failedCount := 0, averageScore := 0
        departments := [], departmentStats := [], referenceEmployee := none } :=
  C7_header_only_all_zero [["T", "S", "Name", "ID", "DOB", "Dept", "1. Q1"]] rfl

end KrishnaMaruti
